import Mathlib

/-!
Shallow embedding of the `@snowinch-tools/githubcron` package core:
the `ServerlessCron` orchestrator (job registry, request dispatch engine,
GitHub-workflow descriptor generator) together with its security and
job-context utilities.

JavaScript exceptions are modelled with `Except`/explicit error components;
thrown values are represented by the `Thrown` type (a structured
`ServerlessCronError`, a plain `Error`, or a non-`Error` value).  Side
effects that the specification talks about (which lifecycle callbacks and
handlers actually run, and in which order) are made observable through an
event trace returned alongside each dispatch result.  Console logging is
ignored: it influences no observable result.  `Date.now()` is modelled by
explicit timestamp parameters.
-/

namespace GithubCron

/-- A JavaScript value (only the shape matters for the engine: handler
results are opaque to the dispatch logic). -/
inductive JsValue where
  | null
  | str (s : String)
  | num (n : Int)
deriving DecidableEq, Repr

/-- A thrown JavaScript value: a structured `ServerlessCronError`
(message, code, statusCode, extending `Error`), a plain `Error` with a
message, or a non-`Error` value (represented by its `String(...)`
conversion). -/
inductive Thrown where
  | cron (message : String) (code : String) (statusCode : Nat)
  | err (message : String)
  | other (s : String)
deriving DecidableEq, Repr

/-- Request headers: an object mapping header names to string values
(keys unique; lookup finds the entry with the exact key). -/
abbrev Headers := List (String × String)

/-- `headers[key]` — property lookup by exact key. -/
def getHeader (headers : Headers) (key : String) : Option String :=
  (headers.find? (fun p => p.1 == key)).map Prod.snd

/-- JavaScript `a || b` on two possibly-undefined strings: `a` unless it is
undefined or the empty string (falsy). -/
def jsOr (a b : Option String) : Option String :=
  match a with
  | some s => if s = "" then b else some s
  | none => b

/-- JavaScript falsiness of a possibly-undefined string (`!x`). -/
def isFalsy (a : Option String) : Bool :=
  match a with
  | some s => s = ""
  | none => true

/-- `validateSecret` from `utils/security.ts`: reads
`headers["x-cron-secret"] || headers["X-Cron-Secret"]`, throws a
`ServerlessCronError` `MISSING_SECRET`/401 when falsy, `INVALID_SECRET`/403
when not exactly the expected secret, returns `true` otherwise. -/
def validateSecret (headers : Headers) (expectedSecret : String) :
    Except Thrown Bool :=
  let headerSecret := jsOr (getHeader headers "x-cron-secret")
    (getHeader headers "X-Cron-Secret")
  if isFalsy headerSecret then
    .error (.cron "Missing X-Cron-Secret header" "MISSING_SECRET" 401)
  else if headerSecret ≠ some expectedSecret then
    .error (.cron "Invalid secret token" "INVALID_SECRET" 403)
  else
    .ok true

/-- `validateMethod` from `utils/security.ts`. -/
def validateMethod (method : String) : Except Thrown Bool :=
  if method.toUpper ≠ "POST" then
    .error (.cron "Method not allowed. Only POST is supported."
      "METHOD_NOT_ALLOWED" 405)
  else
    .ok true

/-- `JobContext` from `types.ts`; `startedAt` and `duration` use explicit
numeric timestamps. -/
structure JobContext where
  jobName : String
  startedAt : Nat
  duration : Option Nat := none
  result : Option JsValue := none
  error : Option Thrown := none
  headers : Headers
  metadata : Option (List (String × JsValue)) := none
deriving DecidableEq, Repr

/-- `createJobContext` from `utils/context.ts` (`startedAt = new Date()`
becomes the explicit `now` argument). -/
def createJobContext (jobName : String) (headers : Headers)
    (now : Nat) (metadata : Option (List (String × JsValue)) := none) :
    JobContext :=
  { jobName := jobName
    startedAt := now
    headers := headers
    metadata := metadata }

/-- `completeJobContext` from `utils/context.ts`:
`{...context, result, duration: Date.now() - startTime}`. -/
def completeJobContext (context : JobContext) (result : JsValue)
    (startTime now : Nat) : JobContext :=
  { context with result := some result, duration := some (now - startTime) }

/-- `errorJobContext` from `utils/context.ts`:
`{...context, error, duration: Date.now() - startTime}`. -/
def errorJobContext (context : JobContext) (error : Thrown)
    (startTime now : Nat) : JobContext :=
  { context with error := some error, duration := some (now - startTime) }

/-- `error instanceof Error ? error : new Error(String(error))` — the
conversion applied before an error is stored in a context. -/
def asErrorObject : Thrown → Thrown
  | .other s => .err s
  | e => e

/-- A job handler: receives the base context, returns a value or throws. -/
abbrev JobHandler := JobContext → Except Thrown JsValue

/-- A lifecycle callback (`onJobStart`/`onJobComplete`/`onJobError`):
receives a context, returns nothing or throws. -/
abbrev Callback := JobContext → Except Thrown Unit

/-- `schedule: string | string[]` of `JobDefinition`. -/
inductive Schedule where
  | one (s : String)
  | many (l : List String)

/-- `Array.isArray(schedule) ? schedule : [schedule]` — normalize a
schedule into a list of schedule strings. -/
def normalizeSchedules : Schedule → List String
  | .one s => [s]
  | .many l => l

/-- `JobDefinition` from `types.ts`. -/
structure JobDefinition where
  schedule : Schedule
  handler : JobHandler
  description : Option String := none
  timeout : Option Nat := none
  retry : Option Bool := none
  retryAttempts : Option Nat := none

/-- `"vars" | "secrets"`. -/
inductive EnvVarSource where
  | vars
  | secrets
deriving DecidableEq, Repr

/-- `ServerlessCronOptions` from `types.ts` (constructor input; every field
optional as in the source; the custom logger is ignored since logging
produces no observable result). -/
structure ServerlessCronOptions where
  name : Option String := none
  secret : Option String := none
  baseUrl : Option String := none
  baseUrlEnvVar : Option String := none
  envVarSource : Option EnvVarSource := none
  cronPath : Option String := none
  onJobStart : Option Callback := none
  onJobComplete : Option Callback := none
  onJobError : Option Callback := none
  debug : Option Bool := none

/-- JavaScript `a || b` where `b` is a plain string default. -/
def jsOrDefault (a : Option String) (b : String) : String :=
  match a with
  | some s => if s = "" then b else s
  | none => b

/-- The options record the `ServerlessCron` constructor stores
(`this.options = { secret: options.secret || "", ... }`). -/
structure Options where
  name : Option String
  secret : String
  baseUrl : String
  cronPath : String
  debug : Bool
  baseUrlEnvVar : Option String
  envVarSource : Option EnvVarSource
  onJobStart : Option Callback
  onJobComplete : Option Callback
  onJobError : Option Callback

/-- `CronRequest` from `types.ts`. -/
structure CronRequest where
  jobName : String
  headers : Headers
  body : Option JsValue := none

/-- The body of a `CronResponse`. -/
structure ResponseBody where
  success : Bool
  message : Option String := none
  result : Option JsValue := none
  error : Option String := none
deriving DecidableEq, Repr

/-- `CronResponse` from `types.ts`. -/
structure CronResponse where
  status : Nat
  body : ResponseBody
  headers : Option Headers := none
deriving DecidableEq, Repr

/-- The `ServerlessCron` engine state: normalized options plus the job
registry (`Map<string, JobDefinition>`, insertion ordered). -/
structure ServerlessCron where
  options : Options
  jobs : List (String × JobDefinition)

/-- The `ServerlessCron` constructor: normalizes options and starts with an
empty registry. -/
def mkServerlessCron (options : ServerlessCronOptions) : ServerlessCron :=
  { options :=
      { name := options.name
        secret := jsOrDefault options.secret ""
        baseUrl := jsOrDefault options.baseUrl ""
        cronPath := jsOrDefault options.cronPath "/api/cron"
        debug := options.debug.getD false
        baseUrlEnvVar := options.baseUrlEnvVar
        envVarSource := options.envVarSource
        onJobStart := options.onJobStart
        onJobComplete := options.onJobComplete
        onJobError := options.onJobError }
    jobs := [] }

/-- `this.jobs.has(name)`. -/
def jobsHas (jobs : List (String × JobDefinition)) (name : String) : Bool :=
  jobs.any (fun p => p.1 == name)

/-- `this.jobs.get(name)`. -/
def jobsGet (jobs : List (String × JobDefinition)) (name : String) :
    Option JobDefinition :=
  (jobs.find? (fun p => p.1 == name)).map Prod.snd

/-- `this.jobs.set(name, definition)` for a name not yet present: appends
in insertion order. -/
def jobsSet (jobs : List (String × JobDefinition)) (name : String)
    (definition : JobDefinition) : List (String × JobDefinition) :=
  jobs ++ [(name, definition)]

/-- Splits a character list into its maximal whitespace-free runs
(the accumulator holds the current run, reversed). -/
def splitWhitespaceAux : List Char → List Char → List (List Char)
  | [], [] => []
  | [], acc => [acc.reverse]
  | c :: cs, acc =>
    if c.isWhitespace then
      match acc with
      | [] => splitWhitespaceAux cs []
      | _ => acc.reverse :: splitWhitespaceAux cs []
    else splitWhitespaceAux cs (c :: acc)

/-- `expression.trim().split(/\s+/)`: the whitespace-separated fields of a
cron expression — its maximal whitespace-free runs, except that JavaScript
yields `[""]`, of length 1, when the trimmed string is empty. -/
def cronParts (expression : String) : List String :=
  match splitWhitespaceAux expression.data [] with
  | [] => [""]
  | fields => fields.map (fun f => String.mk f)

/-- `ServerlessCron.isValidCronExpression`: exactly 5 or 6
whitespace-separated fields. -/
def isValidCronExpression (expression : String) : Bool :=
  (cronParts expression).length == 5 || (cronParts expression).length == 6

/-- The `DUPLICATE_JOB` message. -/
def duplicateJobMessage (name : String) : String :=
  "Job \"" ++ name ++ "\" already exists"

/-- The `INVALID_CRON_EXPRESSION` message. -/
def invalidCronMessage (schedule : String) : String :=
  "Invalid cron expression: " ++ schedule

/-- `ServerlessCron.job(name, definition)`: registration.  Returns the
engine state after the call together with the thrown error, if any (the
registry is mutated only by the final `set`, which the two throws
precede). -/
def ServerlessCron.job (c : ServerlessCron) (name : String)
    (definition : JobDefinition) : ServerlessCron × Option Thrown :=
  if jobsHas c.jobs name then
    (c, some (.cron (duplicateJobMessage name) "DUPLICATE_JOB" 500))
  else
    let schedules := normalizeSchedules definition.schedule
    match schedules.find? (fun s => !(isValidCronExpression s)) with
    | some s =>
        (c, some (.cron (invalidCronMessage s) "INVALID_CRON_EXPRESSION" 500))
    | none => ({ c with jobs := jobsSet c.jobs name definition }, none)

/-- Observable dispatch events: which pieces of user-supplied code (and the
secret validator) `handleRequest` actually invokes, in order. -/
inductive Event where
  | validateCalled
  | startCalled
  | handlerCalled
  | completeCalled
  | errorCalled
deriving DecidableEq, Repr

/-- The engine's "secret not configured" message. -/
def secretNotConfiguredMessage : String :=
  "GITHUBCRON_SECRET is not configured. Set it in your ServerlessCron options."

/-- The `JOB_NOT_FOUND` message. -/
def jobNotFoundMessage (name : String) : String :=
  "Job \"" ++ name ++ "\" not found"

/-- The success message of a 200 response. -/
def executedMessage (name : String) : String :=
  "Job \"" ++ name ++ "\" executed successfully"

/-- The 200 response built on handler success. -/
def successResponse (jobName : String) (result : JsValue) : CronResponse :=
  { status := 200
    body :=
      { success := true
        message := some (executedMessage jobName)
        result := some result } }

/-- The outer `catch` of `handleRequest`: a `ServerlessCronError` keeps its
own `statusCode` and message; any other `Error` becomes 500 with its
message; a non-`Error` becomes 500 with `"Unknown error occurred"`. -/
def catchResponse : Thrown → CronResponse
  | .cron message _ statusCode =>
      { status := statusCode, body := { success := false, error := some message } }
  | .err message =>
      { status := 500, body := { success := false, error := some message } }
  | .other _ =>
      { status := 500, body := { success := false, error := some "Unknown error occurred" } }

/-- The inner `catch` of `handleRequest` (lines building the error context,
invoking `onJobError`, and re-throwing): takes the error thrown by the
handler (or by `onJobComplete`), fires `onJobError` when configured, and
re-throws — the original error if `onJobError` returned, or the error
`onJobError` itself threw. -/
def ServerlessCron.innerCatch (c : ServerlessCron) (context : JobContext)
    (startTime t1 : Nat) (error : Thrown) (tr : List Event) :
    Except Thrown CronResponse × List Event :=
  let errorContext := errorJobContext context (asErrorObject error) startTime t1
  match c.options.onJobError with
  | some cb =>
      match cb errorContext with
      | .ok _ => (.error error, tr ++ [.errorCalled])
      | .error e2 => (.error e2, tr ++ [.errorCalled])
  | none => (.error error, tr)

/-- The body of the outer `try` of `handleRequest`: validate the secret,
look up the job, build the context, run `onJobStart`, then the handler
inside the inner `try`, then `onJobComplete`; any throw escapes as
`.error`.  `t0` is `Date.now()` at start, `t1` at completion. -/
def ServerlessCron.handleRequestTry (c : ServerlessCron) (request : CronRequest)
    (t0 t1 : Nat) : Except Thrown CronResponse × List Event :=
  match validateSecret request.headers c.options.secret with
  | .error e => (.error e, [.validateCalled])
  | .ok _ =>
    match jobsGet c.jobs request.jobName with
    | none =>
        (.error (.cron (jobNotFoundMessage request.jobName) "JOB_NOT_FOUND" 404),
          [.validateCalled])
    | some job =>
      let startTime := t0
      let context := createJobContext request.jobName request.headers t0
      let startStep : Except Thrown Unit × List Event :=
        match c.options.onJobStart with
        | some cb => (cb context, [.startCalled])
        | none => (.ok (), [])
      match startStep with
      | (.error e, str) => (.error e, [.validateCalled] ++ str)
      | (.ok _, str) =>
        let tr := [Event.validateCalled] ++ str ++ [Event.handlerCalled]
        match job.handler context with
        | .ok result =>
          let completeContext := completeJobContext context result startTime t1
          (match c.options.onJobComplete with
           | some cb =>
             match cb completeContext with
             | .ok _ =>
                 (.ok (successResponse request.jobName result),
                   tr ++ [.completeCalled])
             | .error e =>
                 c.innerCatch context startTime t1 e (tr ++ [.completeCalled])
           | none => (.ok (successResponse request.jobName result), tr))
        | .error e => c.innerCatch context startTime t1 e tr

/-- `ServerlessCron.handleRequest`: the configuration guard, then the outer
`try`/`catch` converting every thrown error into a response value. -/
def ServerlessCron.handleRequest (c : ServerlessCron) (request : CronRequest)
    (t0 t1 : Nat) : Except Thrown CronResponse × List Event :=
  if c.options.secret = "" then
    (.ok { status := 500
           body := { success := false, error := some secretNotConfiguredMessage } },
      [])
  else
    match c.handleRequestTry request t0 t1 with
    | (.ok r, tr) => (.ok r, tr)
    | (.error e, tr) => (.ok (catchResponse e), tr)

/-- The trigger-block identifier `generateGitHubWorkflow` uses for the
schedule at index `i` of a job:
`jobId = schedules.length > 1 ? jobName-(i+1) : jobName`. -/
def jobIdAt (jobName : String) (schedules : List String) (i : Nat) : String :=
  if schedules.length > 1 then jobName ++ "-" ++ toString (i + 1) else jobName

/-- The trigger-block identifiers emitted for one job by
`generateGitHubWorkflow`, one per schedule index. -/
def triggerJobIds (jobName : String) (schedules : List String) : List String :=
  (List.range schedules.length).map (jobIdAt jobName schedules)

/-- One trigger block pushed onto `jobs` by `generateGitHubWorkflow` for
the schedule at index `i`. -/
def triggerBlock (runner workflowBaseUrl cronPath jobName : String)
    (jobDef : JobDefinition) (schedules : List String) (i : Nat) : String :=
  let schedule := schedules.getD i ""
  let jobId := jobIdAt jobName schedules i
  let url := workflowBaseUrl ++ cronPath ++ "/" ++ jobName
  "\n  trigger-" ++ jobId ++ ":\n    runs-on: " ++ runner ++ "\n    "
    ++ (match jobDef.timeout with
        | some t => "timeout-minutes: " ++ toString ((t + 59) / 60)
        | none => "")
    ++ "\n    if: github.event_name == 'schedule' && github.event.schedule == '"
    ++ schedule
    ++ "' || github.event_name == 'workflow_dispatch'\n    steps:\n      - name: Trigger "
    ++ jobName
    ++ (if schedules.length > 1 then " (Schedule " ++ toString (i + 1) ++ ")" else "")
    ++ "\n        run: |\n          curl -X POST \\\n            -H \"X-Cron-Secret: $\x7b\x7b secrets.GITHUBCRON_SECRET \x7d\x7d\" \\\n            -H \"Content-Type: application/json\" \\\n            -f \\\n            "
    ++ url ++ "\n        "
    ++ (if jobDef.retry ≠ some false then "continue-on-error: false" else "")

/-- `WorkflowConfig` from `types.ts`. -/
structure WorkflowConfig where
  name : Option String := none
  runner : Option String := none
  env : Option (List (String × String)) := none

/-- `ServerlessCron.generateGitHubWorkflow`: projects the registry into the
GitHub Actions workflow document, or throws `MISSING_BASE_URL` when neither
a base URL nor an environment-variable reference is configured. -/
def ServerlessCron.generateGitHubWorkflow (c : ServerlessCron)
    (config : Option WorkflowConfig := none) : Except Thrown String :=
  if c.options.baseUrl = "" ∧ isFalsy c.options.baseUrlEnvVar then
    .error (.cron
      "Either baseUrl or baseUrlEnvVar is required to generate GitHub workflow"
      "MISSING_BASE_URL" 500)
  else
    let workflowName := jsOrDefault c.options.name
      (jsOrDefault (config.bind (·.name)) "Serverless Cron Jobs")
    let runner := jsOrDefault (config.bind (·.runner)) "ubuntu-latest"
    let workflowBaseUrl :=
      if isFalsy c.options.baseUrlEnvVar then c.options.baseUrl
      else
        let source := match c.options.envVarSource.getD .vars with
          | .vars => "vars"
          | .secrets => "secrets"
        "$\x7b\x7b " ++ source ++ "." ++ (c.options.baseUrlEnvVar.getD "")
          ++ " \x7d\x7d"
    let jobs := c.jobs.flatMap (fun p =>
      let schedules := normalizeSchedules p.2.schedule
      (List.range schedules.length).map (fun i =>
        triggerBlock runner workflowBaseUrl c.options.cronPath p.1 p.2
          schedules i))
    let scheduleBlocks := String.intercalate "\n" (c.jobs.flatMap (fun p =>
      (normalizeSchedules p.2.schedule).map (fun s =>
        "    - cron: '" ++ s ++ "'")))
    .ok ("name: " ++ workflowName ++ "\n\non:\n  schedule:\n" ++ scheduleBlocks
      ++ "\n  workflow_dispatch:  # Allows manual trigger from GitHub UI\n\njobs:"
      ++ String.join jobs ++ "\n")

/-! ## General lemmas about the secret validator and the registry -/

theorem validateSecret_ok_lower (headers : Headers) (s : String) (hne : s ≠ "")
    (h : getHeader headers "x-cron-secret" = some s) :
    validateSecret headers s = .ok true := by
  simp [validateSecret, h, jsOr, isFalsy, hne]

theorem validateSecret_ok_upper (headers : Headers) (s : String) (hne : s ≠ "")
    (hlow : isFalsy (getHeader headers "x-cron-secret") = true)
    (h : getHeader headers "X-Cron-Secret" = some s) :
    validateSecret headers s = .ok true := by
  rcases hl : getHeader headers "x-cron-secret" with _ | v
  · simp [validateSecret, hl, h, jsOr, isFalsy, hne]
  · have hv : v = "" := by simpa [isFalsy, hl] using hlow
    subst hv
    simp [validateSecret, hl, h, jsOr, isFalsy, hne]

theorem validateSecret_wrong (headers : Headers) (s v : String)
    (hget : getHeader headers "x-cron-secret" = some v) (hvne : v ≠ "")
    (hne : v ≠ s) :
    validateSecret headers s =
      .error (.cron "Invalid secret token" "INVALID_SECRET" 403) := by
  simp [validateSecret, hget, jsOr, isFalsy, hvne, hne]

theorem validateSecret_missing (headers : Headers) (s : String)
    (h1 : getHeader headers "x-cron-secret" = none)
    (h2 : getHeader headers "X-Cron-Secret" = none) :
    validateSecret headers s =
      .error (.cron "Missing X-Cron-Secret header" "MISSING_SECRET" 401) := by
  simp [validateSecret, h1, h2, jsOr, isFalsy]

theorem jobsHas_of_jobsGet (jobs : List (String × JobDefinition)) (name : String)
    (d : JobDefinition) (h : jobsGet jobs name = some d) :
    jobsHas jobs name = true := by
  rcases hf : jobs.find? (fun p => p.1 == name) with _ | p
  · simp [jobsGet, hf] at h
  · have hp := List.find?_some hf
    have hm := List.mem_of_find?_eq_some hf
    exact List.any_eq_true.mpr ⟨p, hm, hp⟩

/-! ## Claim theorems -/

/-- Claim C3: `handleRequest` never throws — for every engine, request and
pair of timestamps, the dispatch resolves to a response value (`Except.ok`),
whatever the configured secret, request headers, registry content, handler
behaviour and lifecycle-callback behaviour. -/
theorem handleRequest_never_throws (c : ServerlessCron) (request : CronRequest)
    (t0 t1 : Nat) : ((c.handleRequest request t0 t1).1).isOk = true := by
  unfold ServerlessCron.handleRequest
  split
  · rfl
  · rcases h : c.handleRequestTry request t0 t1 with ⟨r | r, tr⟩ <;>
      simp [h, Except.isOk, Except.toBool]

/-- Definitions used by the C6 counterexample: an all-uppercase header key
whose lowercase form is `x-cron-secret`. -/
def upperHeaders : Headers := [("X-CRON-SECRET", "test-secret")]

/-- Claim C6 counterexample: the header key `X-CRON-SECRET` lowercases to
`x-cron-secret` and carries the expected secret, yet `validateSecret` fails
with `MISSING_SECRET` — the validator checks only the two literal spellings
`x-cron-secret` and `X-Cron-Secret`, not case-insensitively. -/
theorem validateSecret_not_case_insensitive :
    validateSecret upperHeaders "test-secret" =
      .error (.cron "Missing X-Cron-Secret header" "MISSING_SECRET" 401) ∧
    "X-CRON-SECRET".data.map Char.toLower = "x-cron-secret".data ∧
    getHeader upperHeaders "X-CRON-SECRET" = some "test-secret" := by
  refine ⟨rfl, by decide, rfl⟩

/-- Claim C6 (amended): `validateSecret` reads exactly the two literal
spellings: it succeeds on every header map carrying the expected (non-empty)
secret under the key `x-cron-secret`, or under `X-Cron-Secret` when the
lowercase key is absent or empty. -/
theorem validateSecret_two_spellings (headers : Headers) (s : String)
    (hne : s ≠ "")
    (h : getHeader headers "x-cron-secret" = some s ∨
      (isFalsy (getHeader headers "x-cron-secret") = true ∧
        getHeader headers "X-Cron-Secret" = some s)) :
    validateSecret headers s = .ok true := by
  rcases h with h | ⟨hlow, h⟩
  · exact validateSecret_ok_lower headers s hne h
  · exact validateSecret_ok_upper headers s hne hlow h

/-- Claim C6 witness: the title-cased spelling with a concrete secret. -/
theorem validateSecret_two_spellings_witness :
    validateSecret [("X-Cron-Secret", "tok")] "tok" = .ok true :=
  validateSecret_two_spellings [("X-Cron-Secret", "tok")] "tok" (by decide)
    (Or.inr ⟨rfl, rfl⟩)

/-- Claim C7: for a not-yet-registered name, registration validates each
schedule string purely by token count: it succeeds (appending the
definition) whenever every normalized schedule has exactly 5 or 6
whitespace-separated fields, whatever their content, and fails with
`INVALID_CRON_EXPRESSION` (status 500) as soon as some schedule does not;
validity is exactly the token count being 5 or 6, and a single schedule
string is first normalized into a one-element list. -/
theorem job_schedule_validation (c : ServerlessCron) (name : String)
    (d : JobDefinition) (hfresh : jobsHas c.jobs name = false) :
    ((normalizeSchedules d.schedule).all isValidCronExpression = true →
      c.job name d = ({ c with jobs := jobsSet c.jobs name d }, none)) ∧
    (∀ s, (normalizeSchedules d.schedule).find?
        (fun x => !(isValidCronExpression x)) = some s →
      c.job name d =
        (c, some (.cron (invalidCronMessage s) "INVALID_CRON_EXPRESSION" 500))) ∧
    (∀ s, isValidCronExpression s = true ↔
      ((cronParts s).length = 5 ∨ (cronParts s).length = 6)) ∧
    (∀ s, normalizeSchedules (.one s) = [s]) := by
  refine ⟨?_, ?_, ?_, fun s => rfl⟩
  case refine_3 =>
    intro s
    simp [isValidCronExpression]
  · intro hall
    have hnone : (normalizeSchedules d.schedule).find?
        (fun x => !(isValidCronExpression x)) = none := by
      rw [List.find?_eq_none]
      intro x hx
      have := List.all_eq_true.mp hall x hx
      simp [this]
    simp [ServerlessCron.job, hfresh, hnone]
  · intro s hs
    simp [ServerlessCron.job, hfresh, hs]

/-- Claim C7 witness: registering a fresh name whose single schedule has
five tokens of arbitrary content (`"99 99 99 99 99"`) succeeds. -/
def freshEngine : ServerlessCron := mkServerlessCron { secret := some "s" }

/-- A job definition with the out-of-range five-field schedule. -/
def weirdScheduleDef : JobDefinition where
  schedule := .one "99 99 99 99 99"
  handler := fun _ => .ok .null

theorem job_schedule_validation_witness :
    freshEngine.job "weird" weirdScheduleDef =
      ({ freshEngine with
          jobs := jobsSet freshEngine.jobs "weird" weirdScheduleDef }, none) :=
  (job_schedule_validation freshEngine "weird" weirdScheduleDef rfl).1 (by decide)

/-- Claim C8: registering an already-registered name fails with
`DUPLICATE_JOB` (status 500) and leaves the registry state literally
unchanged; in particular the first definition is still the one registered
under that name. -/
theorem job_duplicate_unchanged (c : ServerlessCron) (name : String)
    (d d2 : JobDefinition) (h : jobsGet c.jobs name = some d) :
    c.job name d2 =
      (c, some (.cron (duplicateJobMessage name) "DUPLICATE_JOB" 500)) ∧
    jobsGet ((c.job name d2).1).jobs name = some d := by
  have hhas := jobsHas_of_jobsGet c.jobs name d h
  constructor
  · simp [ServerlessCron.job, hhas]
  · simp [ServerlessCron.job, hhas, h]

/-- Claim C8 witness: registering `"weird"` twice on a concrete engine. -/
theorem job_duplicate_unchanged_witness :
    (freshEngine.job "weird" weirdScheduleDef).1.job "weird" weirdScheduleDef =
      ((freshEngine.job "weird" weirdScheduleDef).1,
        some (.cron (duplicateJobMessage "weird") "DUPLICATE_JOB" 500)) :=
  (job_duplicate_unchanged (freshEngine.job "weird" weirdScheduleDef).1 "weird"
    weirdScheduleDef weirdScheduleDef rfl).1

/-! ## Dispatch-engine scenarios -/

/-- Options with only a secret configured. -/
def plainOpts : ServerlessCronOptions where
  secret := some "s"

/-- A job definition whose handler throws a structured `ServerlessCronError`
carrying its own status code 404. -/
def cronThrowingDef : JobDefinition where
  schedule := .one "0 9 * * *"
  handler := fun _ => .error (.cron "nope" "SOME_CODE" 404)

/-- Engine with the `ServerlessCronError`-throwing handler registered. -/
def cronThrowingEngine : ServerlessCron :=
  ((mkServerlessCron plainOpts).job "j" cronThrowingDef).1

/-- A request for job `"j"` with the correct secret. -/
def okRequest : CronRequest where
  jobName := "j"
  headers := [("x-cron-secret", "s")]

/-- Claim C1 counterexample: a handler that throws a `ServerlessCronError`
with `statusCode` 404 yields a 404 response, not a 500 one — the outer
catch propagates a structured error's own status code even when the error
was thrown by the handler. -/
theorem handler_cron_error_keeps_status :
    (cronThrowingEngine.handleRequest okRequest 0 0).1 =
      .ok { status := 404, body := { success := false, error := some "nope" } } ∧
    (404 : Nat) ≠ 500 :=
  ⟨rfl, by decide⟩

/-- Claim C1 (amended): with a valid secret, an existing job and
well-behaved configured `onJobStart`/`onJobError` observers, a handler
failure surfaces with the failure's message and with status 500 — unless
the thrown failure is itself a structured `ServerlessCronError`, in which
case the response carries that failure's own `statusCode`; a non-`Error`
thrown value yields 500 with `"Unknown error occurred"`. -/
theorem handler_failure_response (c : ServerlessCron) (request : CronRequest)
    (t0 t1 : Nat) (job : JobDefinition) (e : Thrown)
    (hne : c.options.secret ≠ "")
    (hhdr : getHeader request.headers "x-cron-secret" = some c.options.secret)
    (hjob : jobsGet c.jobs request.jobName = some job)
    (hstart : ∀ cb, c.options.onJobStart = some cb →
      cb (createJobContext request.jobName request.headers t0) = .ok ())
    (hfail : job.handler (createJobContext request.jobName request.headers t0) =
      .error e)
    (herr : ∀ cb, c.options.onJobError = some cb →
      cb (errorJobContext (createJobContext request.jobName request.headers t0)
        (asErrorObject e) t0 t1) = .ok ()) :
    (c.handleRequest request t0 t1).1 = .ok (match e with
      | .cron message _ statusCode =>
          { status := statusCode
            body := { success := false, error := some message } }
      | .err message =>
          { status := 500, body := { success := false, error := some message } }
      | .other _ =>
          { status := 500
            body := { success := false, error := some "Unknown error occurred" } }) := by
  have hval := validateSecret_ok_lower request.headers c.options.secret hne hhdr
  have hcatch : (c.handleRequest request t0 t1).1 = .ok (catchResponse e) := by
    rcases hS : c.options.onJobStart with _ | cbS <;>
      rcases hE : c.options.onJobError with _ | cbE
    · simp [ServerlessCron.handleRequest, ServerlessCron.handleRequestTry,
        ServerlessCron.innerCatch, hne, hval, hjob, hS, hE, hfail]
    · simp [ServerlessCron.handleRequest, ServerlessCron.handleRequestTry,
        ServerlessCron.innerCatch, hne, hval, hjob, hS, hE, hfail, herr cbE hE]
    · simp [ServerlessCron.handleRequest, ServerlessCron.handleRequestTry,
        ServerlessCron.innerCatch, hne, hval, hjob, hS, hE, hfail,
        hstart cbS hS]
    · simp [ServerlessCron.handleRequest, ServerlessCron.handleRequestTry,
        ServerlessCron.innerCatch, hne, hval, hjob, hS, hE, hfail,
        hstart cbS hS, herr cbE hE]
  rw [hcatch]
  cases e <;> rfl

/-- Claim C1 witness: a plain (non-`ServerlessCronError`) handler failure
on a concrete engine surfaces as 500 with the failure's message. -/
def plainThrowingDef : JobDefinition where
  schedule := .one "0 9 * * *"
  handler := fun _ => .error (.err "handler failed")

/-- Engine with the plain-`Error`-throwing handler registered. -/
def plainThrowingEngine : ServerlessCron :=
  ((mkServerlessCron plainOpts).job "j" plainThrowingDef).1

theorem handler_failure_response_witness :
    (plainThrowingEngine.handleRequest okRequest 0 0).1 =
      .ok { status := 500
            body := { success := false, error := some "handler failed" } } :=
  handler_failure_response plainThrowingEngine okRequest 0 0 plainThrowingDef
    (.err "handler failed") (by decide) rfl rfl
    (fun cb h => Option.noConfusion h) rfl (fun cb h => Option.noConfusion h)

/-- Options whose `onJobStart` observer throws. -/
def throwingStartOpts : ServerlessCronOptions where
  secret := some "s"
  onJobStart := some (fun _ => .error (.err "boom"))

/-- A job definition with a trivially succeeding handler. -/
def okDef : JobDefinition where
  schedule := .one "0 9 * * *"
  handler := fun _ => .ok .null

/-- Engine whose `onJobStart` observer throws. -/
def throwingStartEngine : ServerlessCron :=
  ((mkServerlessCron throwingStartOpts).job "j" okDef).1

/-- Claim C2 counterexample: when the configured `onJobStart` callback
throws, `handleRequest` does not let the failure escape — it resolves to an
`Except.ok` response value (status 500 with the callback's message), and
the trace shows the handler never ran. -/
theorem onJobStart_failure_is_caught :
    throwingStartEngine.handleRequest okRequest 0 0 =
      (.ok { status := 500, body := { success := false, error := some "boom" } },
        [Event.validateCalled, Event.startCalled]) ∧
    ((throwingStartEngine.handleRequest okRequest 0 0).1).isOk = true :=
  ⟨rfl, rfl⟩

/-- Claim C2 (amended): a failure thrown by the configured `onJobStart`
callback is caught by the engine's outer boundary like every other failure
and converted to a response value (the failure's own `statusCode` for a
structured `ServerlessCronError`, otherwise 500); the job handler and the
completion callbacks are never invoked on that path. -/
theorem onJobStart_failure_converted (c : ServerlessCron) (request : CronRequest)
    (t0 t1 : Nat) (job : JobDefinition) (cb : Callback) (e : Thrown)
    (hne : c.options.secret ≠ "")
    (hhdr : getHeader request.headers "x-cron-secret" = some c.options.secret)
    (hjob : jobsGet c.jobs request.jobName = some job)
    (hS : c.options.onJobStart = some cb)
    (hthrow : cb (createJobContext request.jobName request.headers t0) =
      .error e) :
    c.handleRequest request t0 t1 =
      (.ok (match e with
        | .cron message _ statusCode =>
            { status := statusCode
              body := { success := false, error := some message } }
        | .err message =>
            { status := 500, body := { success := false, error := some message } }
        | .other _ =>
            { status := 500
              body := { success := false, error := some "Unknown error occurred" } }),
        [Event.validateCalled, Event.startCalled]) := by
  have hval := validateSecret_ok_lower request.headers c.options.secret hne hhdr
  have hcatch : c.handleRequest request t0 t1 =
      (.ok (catchResponse e), [Event.validateCalled, Event.startCalled]) := by
    simp [ServerlessCron.handleRequest, ServerlessCron.handleRequestTry,
      hne, hval, hjob, hS, hthrow]
  rw [hcatch]
  cases e <;> rfl

/-- Claim C2 witness: the concrete throwing-`onJobStart` engine, via the
amended theorem. -/
theorem onJobStart_failure_converted_witness :
    throwingStartEngine.handleRequest okRequest 0 0 =
      (.ok { status := 500, body := { success := false, error := some "boom" } },
        [Event.validateCalled, Event.startCalled]) :=
  onJobStart_failure_converted throwingStartEngine okRequest 0 0 okDef
    (fun _ => .error (.err "boom")) (.err "boom") (by decide) rfl rfl rfl rfl

/-- Engine with just a succeeding job `"j"` registered. -/
def okEngine : ServerlessCron :=
  ((mkServerlessCron plainOpts).job "j" okDef).1

/-- A request whose `x-cron-secret` header is present but empty. -/
def emptyHeaderRequest : CronRequest where
  jobName := "j"
  headers := [("x-cron-secret", "")]

/-- Claim C4 counterexample: a request whose `x-cron-secret` header is
present but equal to the empty string (hence not equal to the configured
secret `"s"`) is answered with 401 `MISSING_SECRET`, not with 403 — the
validator treats a present-but-empty header value as absent. -/
theorem present_empty_header_not_403 :
    (okEngine.handleRequest emptyHeaderRequest 0 0).1 =
      .ok { status := 401
            body := { success := false
                      error := some "Missing X-Cron-Secret header" } } ∧
    getHeader emptyHeaderRequest.headers "x-cron-secret" = some "" ∧
    ("" : String) ≠ okEngine.options.secret ∧
    (401 : Nat) ≠ 403 :=
  ⟨rfl, rfl, by decide, by decide⟩

/-- Claim C4 (amended): for an engine with a configured non-empty secret:
a request whose `x-cron-secret` header equals the secret and whose job is
registered is answered 200 with `body.success = true` provided the handler
and the configured `onJobStart`/`onJobComplete` callbacks succeed; a
present non-empty wrong header value yields 403; an absent header (in both
accepted spellings) yields 401 — as does a present-but-empty value, per the
counterexample; a correct secret with an unregistered job yields 404 with
the `Job "<name>" not found` body. -/
theorem handleRequest_status_matrix (c : ServerlessCron) (request : CronRequest)
    (t0 t1 : Nat) (hne : c.options.secret ≠ "") :
    (∀ job r,
      getHeader request.headers "x-cron-secret" = some c.options.secret →
      jobsGet c.jobs request.jobName = some job →
      (∀ cb, c.options.onJobStart = some cb →
        cb (createJobContext request.jobName request.headers t0) = .ok ()) →
      job.handler (createJobContext request.jobName request.headers t0) = .ok r →
      (∀ cb, c.options.onJobComplete = some cb →
        cb (completeJobContext (createJobContext request.jobName request.headers t0)
          r t0 t1) = .ok ()) →
      (c.handleRequest request t0 t1).1 = .ok (successResponse request.jobName r) ∧
      (successResponse request.jobName r).status = 200 ∧
      (successResponse request.jobName r).body.success = true) ∧
    (∀ v, getHeader request.headers "x-cron-secret" = some v → v ≠ "" →
      v ≠ c.options.secret →
      (c.handleRequest request t0 t1).1 =
        .ok { status := 403
              body := { success := false, error := some "Invalid secret token" } }) ∧
    (getHeader request.headers "x-cron-secret" = none →
      getHeader request.headers "X-Cron-Secret" = none →
      (c.handleRequest request t0 t1).1 =
        .ok { status := 401
              body := { success := false
                        error := some "Missing X-Cron-Secret header" } }) ∧
    (getHeader request.headers "x-cron-secret" = some c.options.secret →
      jobsGet c.jobs request.jobName = none →
      (c.handleRequest request t0 t1).1 =
        .ok { status := 404
              body := { success := false
                        error := some (jobNotFoundMessage request.jobName) } }) := by
  refine ⟨?_, ?_, ?_, ?_⟩
  · intro job r hhdr hjob hstart hok hcomp
    have hval := validateSecret_ok_lower request.headers c.options.secret hne hhdr
    refine ⟨?_, rfl, rfl⟩
    rcases hS : c.options.onJobStart with _ | cbS <;>
      rcases hC : c.options.onJobComplete with _ | cbC
    · simp [ServerlessCron.handleRequest, ServerlessCron.handleRequestTry,
        hne, hval, hjob, hS, hC, hok]
    · simp [ServerlessCron.handleRequest, ServerlessCron.handleRequestTry,
        hne, hval, hjob, hS, hC, hok, hcomp cbC hC]
    · simp [ServerlessCron.handleRequest, ServerlessCron.handleRequestTry,
        hne, hval, hjob, hS, hC, hok, hstart cbS hS]
    · simp [ServerlessCron.handleRequest, ServerlessCron.handleRequestTry,
        hne, hval, hjob, hS, hC, hok, hstart cbS hS, hcomp cbC hC]
  · intro v hv hvne hneq
    have hval := validateSecret_wrong request.headers c.options.secret v hv hvne hneq
    simp [ServerlessCron.handleRequest, ServerlessCron.handleRequestTry,
      hne, hval, catchResponse]
  · intro h1 h2
    have hval := validateSecret_missing request.headers c.options.secret h1 h2
    simp [ServerlessCron.handleRequest, ServerlessCron.handleRequestTry,
      hne, hval, catchResponse]
  · intro hhdr hnojob
    have hval := validateSecret_ok_lower request.headers c.options.secret hne hhdr
    simp [ServerlessCron.handleRequest, ServerlessCron.handleRequestTry,
      hne, hval, hnojob, catchResponse]

/-- A request for the unregistered job `"k"` with the correct secret. -/
def unknownJobRequest : CronRequest where
  jobName := "k"
  headers := [("x-cron-secret", "s")]

/-- Claim C4 witness: the unknown-job branch on a concrete engine. -/
theorem handleRequest_status_matrix_witness :
    (okEngine.handleRequest unknownJobRequest 0 0).1 =
      .ok { status := 404
            body := { success := false
                      error := some (jobNotFoundMessage "k") } } :=
  (handleRequest_status_matrix okEngine unknownJobRequest 0 0 (by decide)).2.2.2
    rfl rfl

/-- Options whose `onJobComplete` callback throws while `onJobError` is
also configured. -/
def throwingCompleteOpts : ServerlessCronOptions where
  secret := some "s"
  onJobComplete := some (fun _ => .error (.err "cb boom"))
  onJobError := some (fun _ => .ok ())

/-- Engine whose `onJobComplete` callback throws. -/
def throwingCompleteEngine : ServerlessCron :=
  ((mkServerlessCron throwingCompleteOpts).job "j" okDef).1

/-- Claim C5 counterexample: when the configured `onJobComplete` callback
itself throws, the engine routes that failure through the inner catch and
invokes `onJobError` as well — both completion callbacks fire in one
`handleRequest` call with a valid secret and an existing job. -/
theorem both_completion_callbacks_fire :
    (throwingCompleteEngine.handleRequest okRequest 0 0).2 =
      [Event.validateCalled, Event.handlerCalled, Event.completeCalled,
        Event.errorCalled] ∧
    Event.completeCalled ∈ (throwingCompleteEngine.handleRequest okRequest 0 0).2 ∧
    Event.errorCalled ∈ (throwingCompleteEngine.handleRequest okRequest 0 0).2 :=
  ⟨rfl, by decide, by decide⟩

/-- Claim C5 (amended): for a call with a valid secret and an existing job,
with both completion callbacks configured, provided the configured
`onJobStart` and `onJobComplete` callbacks themselves do not throw, the
event trace is exactly: the secret validation, `onJobStart` (at most once,
only if configured), then exactly one handler invocation, then exactly one
of `onJobComplete`/`onJobError` — `onJobComplete` when the handler
succeeds, `onJobError` when it fails (whether or not `onJobError` itself
throws). -/
theorem lifecycle_callback_exclusivity (c : ServerlessCron)
    (request : CronRequest) (t0 t1 : Nat) (job : JobDefinition)
    (cbC cbE : Callback)
    (hne : c.options.secret ≠ "")
    (hhdr : getHeader request.headers "x-cron-secret" = some c.options.secret)
    (hjob : jobsGet c.jobs request.jobName = some job)
    (hC : c.options.onJobComplete = some cbC)
    (hE : c.options.onJobError = some cbE)
    (hstart : ∀ cb, c.options.onJobStart = some cb →
      cb (createJobContext request.jobName request.headers t0) = .ok ())
    (hcomp : ∀ r,
      job.handler (createJobContext request.jobName request.headers t0) = .ok r →
      cbC (completeJobContext (createJobContext request.jobName request.headers t0)
        r t0 t1) = .ok ()) :
    (∀ r, job.handler (createJobContext request.jobName request.headers t0) =
        .ok r →
      (c.handleRequest request t0 t1).2 =
        [Event.validateCalled] ++
          (match c.options.onJobStart with
           | some _ => [Event.startCalled]
           | none => []) ++
          [Event.handlerCalled, Event.completeCalled]) ∧
    (∀ e, job.handler (createJobContext request.jobName request.headers t0) =
        .error e →
      (c.handleRequest request t0 t1).2 =
        [Event.validateCalled] ++
          (match c.options.onJobStart with
           | some _ => [Event.startCalled]
           | none => []) ++
          [Event.handlerCalled, Event.errorCalled]) := by
  have hval := validateSecret_ok_lower request.headers c.options.secret hne hhdr
  constructor
  · intro r hok
    rcases hS : c.options.onJobStart with _ | cbS
    · simp [ServerlessCron.handleRequest, ServerlessCron.handleRequestTry,
        hne, hval, hjob, hS, hC, hok, hcomp r hok]
    · simp [ServerlessCron.handleRequest, ServerlessCron.handleRequestTry,
        hne, hval, hjob, hS, hC, hok, hcomp r hok, hstart cbS hS]
  · intro e hfail
    rcases hS : c.options.onJobStart with _ | cbS <;>
      rcases hcb : cbE (errorJobContext
        (createJobContext request.jobName request.headers t0)
        (asErrorObject e) t0 t1) with e2 | u
    · simp [ServerlessCron.handleRequest, ServerlessCron.handleRequestTry,
        ServerlessCron.innerCatch, hne, hval, hjob, hS, hE, hfail, hcb]
    · simp [ServerlessCron.handleRequest, ServerlessCron.handleRequestTry,
        ServerlessCron.innerCatch, hne, hval, hjob, hS, hE, hfail, hcb]
    · simp [ServerlessCron.handleRequest, ServerlessCron.handleRequestTry,
        ServerlessCron.innerCatch, hne, hval, hjob, hS, hE, hfail, hcb,
        hstart cbS hS]
    · simp [ServerlessCron.handleRequest, ServerlessCron.handleRequestTry,
        ServerlessCron.innerCatch, hne, hval, hjob, hS, hE, hfail, hcb,
        hstart cbS hS]

/-- Options with both completion callbacks configured and well behaved. -/
def bothCallbacksOpts : ServerlessCronOptions where
  secret := some "s"
  onJobComplete := some (fun _ => .ok ())
  onJobError := some (fun _ => .ok ())

/-- Engine with both completion callbacks configured. -/
def bothCallbacksEngine : ServerlessCron :=
  ((mkServerlessCron bothCallbacksOpts).job "j" okDef).1

/-- Claim C5 witness: on a concrete engine whose handler succeeds, the
trace is exactly validation, one handler run, one `onJobComplete`. -/
theorem lifecycle_callback_exclusivity_witness :
    (bothCallbacksEngine.handleRequest okRequest 0 0).2 =
      [Event.validateCalled, Event.handlerCalled, Event.completeCalled] :=
  (lifecycle_callback_exclusivity bothCallbacksEngine okRequest 0 0 okDef
    (fun _ => .ok ()) (fun _ => .ok ()) (by decide) rfl rfl rfl rfl
    (fun cb h => Option.noConfusion h) (fun r _ => rfl)).1 .null rfl

/-- Claim C9: the workflow generator's trigger-block naming: a job with
more than one schedule entry gets blocks identified `<jobName>-<i+1>`
(1-based) and no block bears the bare job name; a job with exactly one
schedule entry gets a single block identified by the bare job name. -/
theorem trigger_block_naming (jobName : String) (d : JobDefinition) :
    ((normalizeSchedules d.schedule).length > 1 →
      triggerJobIds jobName (normalizeSchedules d.schedule) =
        (List.range (normalizeSchedules d.schedule).length).map
          (fun i => jobName ++ "-" ++ toString (i + 1)) ∧
      jobName ∉ triggerJobIds jobName (normalizeSchedules d.schedule)) ∧
    ((normalizeSchedules d.schedule).length = 1 →
      triggerJobIds jobName (normalizeSchedules d.schedule) = [jobName]) := by
  constructor
  · intro h
    constructor
    · simp [triggerJobIds, jobIdAt, h]
    · intro hmem
      simp only [triggerJobIds, List.mem_map] at hmem
      obtain ⟨i, _, heq⟩ := hmem
      rw [jobIdAt, if_pos h] at heq
      have hlen := congrArg String.length heq
      have hdash : ("-" : String).length = 1 := rfl
      simp [String.length_append, hdash] at hlen
      omega
  · intro h
    have hr : List.range 1 = [0] := rfl
    simp [triggerJobIds, jobIdAt, h, hr]

/-- A job definition with two schedule entries. -/
def twoScheduleDef : JobDefinition where
  schedule := .many ["0 9 * * *", "0 18 * * *"]
  handler := fun _ => .ok .null

/-- Claim C9 witness: a concrete two-schedule job gets no block named by
the bare job name. -/
theorem trigger_block_naming_witness :
    "daily" ∉ triggerJobIds "daily" (normalizeSchedules twoScheduleDef.schedule) :=
  ((trigger_block_naming "daily" twoScheduleDef).1 (by decide)).2

/-- Claim C10: an engine constructed with `options.secret` absent or equal
to the empty string stores the empty secret (the constructor collapses both
into "not configured"), and every `handleRequest` call — whatever jobs were
registered afterwards, whatever the request (including one carrying an
`x-cron-secret` header equal to the empty string) — returns status 500 with
the secret-not-configured error body and an empty event trace: neither the
secret validator nor the job handler nor any lifecycle callback is
invoked. -/
theorem handleRequest_secret_not_configured (options : ServerlessCronOptions)
    (jobs : List (String × JobDefinition)) (request : CronRequest)
    (t0 t1 : Nat) (h : options.secret = none ∨ options.secret = some "") :
    (mkServerlessCron options).options.secret = "" ∧
    ({ mkServerlessCron options with jobs := jobs } :
        ServerlessCron).handleRequest request t0 t1 =
      (.ok { status := 500
             body := { success := false
                       error := some secretNotConfiguredMessage } }, []) := by
  have hsec : (mkServerlessCron options).options.secret = "" := by
    rcases h with h | h <;> simp [mkServerlessCron, jsOrDefault, h]
  exact ⟨hsec, by simp [ServerlessCron.handleRequest, hsec]⟩

/-- Claim C10 witness: a constructed engine with empty-string secret and a
request whose `x-cron-secret` header is the empty string still receives the
500 configuration error. -/
theorem handleRequest_secret_not_configured_witness :
    ({ mkServerlessCron { secret := some "" } with jobs := [] } :
        ServerlessCron).handleRequest
      { jobName := "j", headers := [("x-cron-secret", "")] } 0 0 =
      (.ok { status := 500
             body := { success := false
                       error := some secretNotConfiguredMessage } }, []) :=
  (handleRequest_secret_not_configured { secret := some "" } []
    { jobName := "j", headers := [("x-cron-secret", "")] } 0 0
    (Or.inr rfl)).2

end GithubCron
